import Mathlib

/-!
Shallow embedding of the VM deployment orchestrator of
`internal/services/vm.go`, together with the collaborator behaviour it relies
on (`internal/services/azure.go`, `internal/api/handlers.go`).

External collaborator calls (cloud provisioning, mesh registration, remote
validation) are modelled by an outcome oracle: each field of `DeployEnv`
(resp. `CloudEnv`, `StatusEnv`) is the result the corresponding collaborator
returns when the orchestrator reaches that call.  The orchestrator itself is
translated statement by statement; besides the returned status and error it
also produces the list of collaborator calls it issued (`Effect`) and the
sequence of intermediate `VMDeploymentStatus` values (`snapshots`), one entry
per mutation point of the status record.
-/

namespace IstioAzureSetup

/-- `VMInfo` (azure.go:58-68).  `Tags`/`CreatedTime` are carried opaquely. -/
structure VMInfo where
  Name : String
  ResourceGroup : String
  Status : String
  Size : String
  PrivateIP : String
  PublicIP : String
deriving DecidableEq, Repr

/-- `MeshIntegration` (vm.go:33-41).  `Labels`/`ServicePorts` are passed
through to the mesh registrar verbatim and are not inspected by the
orchestrator, so they are carried as opaque association lists. -/
structure MeshIntegration where
  Enabled : Bool
  Namespace : String
  Labels : List (String × String)
  CreateWorkloadEntry : Bool
  CreateServiceEntry : Bool
deriving DecidableEq, Repr

/-- `PostBootTask` (vm.go:43-52).  The Go field `Type` is a reserved word in
Lean, hence `Type'`. -/
structure PostBootTask where
  Name : String
  Type' : String
  Command : String
  ExpectedResult : String
  TimeoutSeconds : Nat
  RetryCount : Nat
  Parameters : List (String × String)
deriving DecidableEq, Repr

/-- `VMDeploymentRequest` (vm.go:23-31).  The embedded `VMRequest` is opaque
to the orchestrator except for `Name` (promoted field), so the remaining
provisioning parameters are omitted; `CloudInitData` is only written, never
read, by the orchestrator. -/
structure VMDeploymentRequest where
  Name : String
  ServiceName : String
  MeshIntegration : Option MeshIntegration
  PostBootTasks : List PostBootTask
  AutoCleanup : Bool
  TimeoutMinutes : Nat
deriving DecidableEq, Repr

/-- `VMMeshFiles` as populated by `IstioService.GenerateVMFiles`
(handlers.go:464-470). -/
structure VMMeshFiles where
  ClusterEnv : String
  MeshYAML : String
  RootCertPEM : String
  IstioToken : String
  Hosts : String
deriving DecidableEq, Repr

/-- `VMDeploymentStatus` (vm.go:54-64).  `Timestamp` is the value of the
oracle clock at the moment `time.Now()` is read. -/
structure VMDeploymentStatus where
  VM : Option VMInfo
  Status : String
  CurrentTask : String
  CompletedTasks : List String
  Error : String
  MeshFiles : Option VMMeshFiles
  CreatedResources : List String
  Timestamp : Nat
deriving DecidableEq, Repr

/-- One collaborator call issued by the orchestrator, as recorded in the
run trace. -/
inductive Effect where
  | createVMCall (name : String)
  | generateVMFilesCall (name ip ns : String)
  | createWorkloadEntryCall (name : String)
  | createServiceEntryCall (name ip svc ns : String)
  | execTaskCall (taskName : String)
  | sleepFor (seconds : Nat)
  | validateConnectionCall (ip : String)
  | istioCleanupCall (name : String)
  | deleteVMCall (name : String)
deriving DecidableEq, Repr

/-- Outcome oracle for the collaborator calls made during one `DeployVM` run
(vm.go:77-201).  `waitReady` is the outcome of the polling loop
`waitForVMReady` (vm.go:310-338): `false` means its context expired before
the VM reported `VM running`.  `parseDuration` models the Go library function
`time.ParseDuration` (seconds on success). -/
structure DeployEnv where
  cloudInit : Except String String
  createVM : Except String VMInfo
  waitReady : Bool
  generateVMFiles : Except String VMMeshFiles
  createWorkloadEntry : Except String Unit
  createServiceEntry : Except String Unit
  validateConn : Except String Bool
  parseDuration : String → Option Nat
  now : Nat

/-- Sleep duration of a `wait` task (vm.go:353-360): default 60 seconds,
overridden by a parseable `duration` parameter. -/
def waitSleepSeconds (env : DeployEnv) (task : PostBootTask) : Nat :=
  match task.Parameters.lookup "duration" with
  | some s =>
    match env.parseDuration s with
    | some d => d
    | none => 60
  | none => 60

/-- `validateVMService` (vm.go:380-395): fails iff the VM power state is not
`VM running`; the `endpoint` parameter is only logged. -/
def validateVMService (vm : VMInfo) (_task : PostBootTask) : Except String Unit :=
  if vm.Status ≠ "VM running" then .error ("VM is not running: " ++ vm.Status)
  else .ok ()

/-- `executePostBootTask` (vm.go:340-378).  The `wait` branch calls
`time.Sleep(duration)` directly (vm.go:363), which runs to completion — the
task context deadline created at vm.go:349 is never consulted, hence the
unconditional `sleepFor` effect.  The `script` branch only logs
"Script execution not implemented yet" and returns nil (vm.go:370-373): no
remote command is attempted and no retry loop runs. -/
def executePostBootTask (env : DeployEnv) (vm : VMInfo) (task : PostBootTask) :
    Except String Unit × List Effect :=
  match task.Type' with
  | "wait" => (.ok (), [.sleepFor (waitSleepSeconds env task)])
  | "validate" => (validateVMService vm task, [])
  | "script" => (.ok (), [])
  | other => (.error ("unknown task type: " ++ other), [])

/-- Wall-clock seconds consumed by the `wait` branch of
`executePostBootTask` when the overall deployment budget has
`remainingBudgetSeconds` left: `time.Sleep(duration)` (vm.go:363) ignores
both the task context and the deployment deadline, so the full configured
duration elapses regardless of the remaining budget. -/
def waitTaskElapsed (env : DeployEnv) (task : PostBootTask)
    (_remainingBudgetSeconds : Nat) : Nat :=
  waitSleepSeconds env task

/-- Effect of one iteration of the loop over `createdResources` in
`cleanupDeployment` (vm.go:400-403): the body only logs the entry — no
delete or deregister call is issued for it. -/
def cleanupResourceStep (_resource : String) : List Effect := []

/-- `cleanupDeployment` (vm.go:397-409), the auto-cleanup helper: iterates
the recorded resources in forward order (logging only), then always deletes
the VM; a `DeleteVM` error is logged, not returned. -/
def cleanupDeployment (vmName : String) (createdResources : List String) :
    List Effect :=
  createdResources.flatMap cleanupResourceStep ++ [.deleteVMCall vmName]

/-- The guard `request.MeshIntegration != nil && request.MeshIntegration.Enabled`
used at vm.go:133 and vm.go:187. -/
def isMeshEnabled (request : VMDeploymentRequest) : Bool :=
  match request.MeshIntegration with
  | some mi => mi.Enabled
  | none => false

/-- Result of one `DeployVM` run: the returned status and error, the ordered
collaborator calls issued, and every intermediate value of the status record
(one snapshot per mutation point, starting at the initial record and ending
at the returned one). -/
structure DeployResult where
  status : VMDeploymentStatus
  err : Option String
  trace : List Effect
  snapshots : List VMDeploymentStatus
deriving DecidableEq, Repr

/-- Step 7 loop of `DeployVM` (vm.go:172-183): each task runs in order; a
failure is logged and the loop continues; on success the task's completed
entry is appended. -/
def runPostBootTasks (env : DeployEnv) (vm : VMInfo) :
    List PostBootTask → VMDeploymentStatus →
    VMDeploymentStatus × List Effect × List VMDeploymentStatus
  | [], st => (st, [], [])
  | task :: rest, st =>
    let st1 := { st with CurrentTask := "executing_task_" ++ task.Name }
    let r := executePostBootTask env vm task
    let st2 :=
      match r.1 with
      | .error _ => st1
      | .ok _ =>
        { st1 with CompletedTasks :=
            st1.CompletedTasks ++ ["task_" ++ task.Name ++ "_completed"] }
    let rec' := runPostBootTasks env vm rest st2
    (rec'.1, (Effect.execTaskCall task.Name :: r.2) ++ rec'.2.1, st2 :: rec'.2.2)

/-- Steps 5-6 of `DeployVM` (vm.go:147-169): optional workload / service
registration.  Each call's failure is logged only; on success the resource
handle and the completed entry are appended. -/
def meshOptionalSteps (env : DeployEnv) (request : VMDeploymentRequest)
    (mi : MeshIntegration) (vm : VMInfo) (st : VMDeploymentStatus) :
    VMDeploymentStatus × List Effect × List VMDeploymentStatus :=
  let s5 :=
    if mi.CreateWorkloadEntry then
      let stc := { st with CurrentTask := "creating_workload_entry" }
      match env.createWorkloadEntry with
      | .error _ => (stc, [Effect.createWorkloadEntryCall vm.Name], [stc])
      | .ok _ =>
        let st' := { stc with
          CreatedResources :=
            stc.CreatedResources ++ ["workloadentry:" ++ ("vm-" ++ vm.Name)],
          CompletedTasks := stc.CompletedTasks ++ ["workload_entry_created"] }
        (st', [Effect.createWorkloadEntryCall vm.Name], [st'])
    else (st, [], [])
  let s6 :=
    if mi.CreateServiceEntry ∧ request.ServiceName ≠ "" then
      let stc := { s5.1 with CurrentTask := "creating_service_entry" }
      let eff := Effect.createServiceEntryCall vm.Name vm.PrivateIP
        request.ServiceName mi.Namespace
      match env.createServiceEntry with
      | .error _ => (stc, [eff], [stc])
      | .ok _ =>
        let st' := { stc with
          CreatedResources :=
            stc.CreatedResources ++
              ["serviceentry:" ++ ("vm-" ++ vm.Name ++ "-service")],
          CompletedTasks := stc.CompletedTasks ++ ["service_entry_created"] }
        (st', [eff], [st'])
    else (s5.1, [], [])
  (s6.1, s5.2.1 ++ s6.2.1, s5.2.2 ++ s6.2.2)

/-- Step 8 of `DeployVM` (vm.go:185-193): if mesh integration is enabled, a
connectivity validation runs; an error or a `false` result is logged only,
a `true` result appends the `mesh_validation_passed` entry. -/
def finalValidation (env : DeployEnv) (request : VMDeploymentRequest)
    (vm : VMInfo) (st : VMDeploymentStatus) :
    VMDeploymentStatus × List Effect × List VMDeploymentStatus :=
  let st0 := { st with CurrentTask := "final_validation" }
  if isMeshEnabled request then
    match env.validateConn with
    | .ok true =>
      let st1 := { st0 with
        CompletedTasks := st0.CompletedTasks ++ ["mesh_validation_passed"] }
      (st1, [Effect.validateConnectionCall vm.PrivateIP], [st1])
    | _ => (st0, [Effect.validateConnectionCall vm.PrivateIP], [st0])
  else (st0, [], [st0])

/-- Steps 7-8 and completion of `DeployVM` (vm.go:172-200), shared by all the
forward paths that survive provisioning and mesh-file generation; this part
of the run can no longer fail. -/
def deployTail (env : DeployEnv) (request : VMDeploymentRequest) (vm : VMInfo)
    (st : VMDeploymentStatus) (trPre : List Effect)
    (snPre : List VMDeploymentStatus) : DeployResult :=
  let t := runPostBootTasks env vm request.PostBootTasks st
  let fv := finalValidation env request vm t.1
  let stF := { fv.1 with
    Status := "completed", CurrentTask := "", Timestamp := env.now }
  { status := stF, err := none,
    trace := trPre ++ t.2.1 ++ fv.2.1,
    snapshots := snPre ++ t.2.2 ++ fv.2.2 ++ [stF] }

/-- `DeployVM` (vm.go:77-201), translated statement by statement over the
outcome oracle.  Failure paths return the failed status together with the
original collaborator error; auto-cleanup runs on the ready-wait and
mesh-file failures only (vm.go:125-127, 139-141). -/
def deployVM (env : DeployEnv) (request : VMDeploymentRequest) : DeployResult :=
  let status0 : VMDeploymentStatus := {
    VM := none, Status := "initializing", CurrentTask := "preparing_deployment",
    CompletedTasks := [], Error := "", MeshFiles := none,
    CreatedResources := [], Timestamp := env.now }
  -- Step 1: cloud-init (vm.go:97-106)
  let s0 := { status0 with CurrentTask := "generating_cloud_init" }
  match env.cloudInit with
  | .error e =>
    let sf := { s0 with
      Status := "failed", Error := "failed to generate cloud-init data: " ++ e }
    { status := sf, err := some e, trace := [], snapshots := [status0, sf] }
  | .ok _ =>
  let s1 := { s0 with CompletedTasks := s0.CompletedTasks ++ ["cloud_init_generated"] }
  -- Step 2: create the VM (vm.go:108-118)
  let s1b := { s1 with CurrentTask := "creating_vm" }
  match env.createVM with
  | .error e =>
    let sf := { s1b with
      Status := "failed", Error := "failed to create VM: " ++ e }
    { status := sf, err := some e, trace := [Effect.createVMCall request.Name],
      snapshots := [status0, s1, sf] }
  | .ok vm =>
  let s2 := { s1b with
    VM := some vm,
    CreatedResources := s1b.CreatedResources ++ ["vm:" ++ vm.Name],
    CompletedTasks := s1b.CompletedTasks ++ ["vm_created"] }
  -- Step 3: wait for the VM to be ready (vm.go:120-130)
  let s2b := { s2 with CurrentTask := "waiting_for_vm_ready" }
  if env.waitReady then
    let s3 := { s2b with CompletedTasks := s2b.CompletedTasks ++ ["vm_ready"] }
    -- Step 4: mesh files (vm.go:132-145)
    match request.MeshIntegration with
    | some mi =>
      if mi.Enabled then
        let s3b := { s3 with CurrentTask := "generating_mesh_files" }
        match env.generateVMFiles with
        | .error e =>
          let sf := { s3b with
            Status := "failed", Error := "failed to generate mesh files: " ++ e }
          let ctr := if request.AutoCleanup then
            cleanupDeployment request.Name sf.CreatedResources else []
          { status := sf, err := some e,
            trace := [Effect.createVMCall request.Name,
              Effect.generateVMFilesCall vm.Name vm.PrivateIP mi.Namespace] ++ ctr,
            snapshots := [status0, s1, s2, s3, sf] }
        | .ok mf =>
          let s4 := { s3b with
            MeshFiles := some mf,
            CompletedTasks := s3b.CompletedTasks ++ ["mesh_files_generated"] }
          let m := meshOptionalSteps env request mi vm s4
          deployTail env request vm m.1
            ([Effect.createVMCall request.Name,
              Effect.generateVMFilesCall vm.Name vm.PrivateIP mi.Namespace] ++ m.2.1)
            ([status0, s1, s2, s3, s4] ++ m.2.2)
      else
        deployTail env request vm s3 [Effect.createVMCall request.Name]
          [status0, s1, s2, s3]
    | none =>
      deployTail env request vm s3 [Effect.createVMCall request.Name]
        [status0, s1, s2, s3]
  else
    let sf := { s2b with
      Status := "failed",
      Error := "VM failed to become ready: timeout waiting for VM to be ready" }
    let ctr := if request.AutoCleanup then
      cleanupDeployment request.Name sf.CreatedResources else []
    { status := sf, err := some "timeout waiting for VM to be ready",
      trace := [Effect.createVMCall request.Name] ++ ctr,
      snapshots := [status0, s1, s2, sf] }

/-- The externally visible resources a deployment may have created. -/
structure World where
  vms : List String
  workloadEntries : List String
  serviceEntries : List String
deriving DecidableEq, Repr

/-- Failure oracle for the collaborator calls made during cleanup:
`deleteVMErr name w = some e` means the compute-client delete call for
`name` fails with `e` in world `w` (azure.go:225-232); the two kube delete
oracles play the same role for the mesh records (handlers.go:548, 554). -/
structure CloudEnv where
  deleteVMErr : String → World → Option String
  kubeDeleteWorkloadFails : String → World → Bool
  kubeDeleteServiceFails : String → World → Bool

/-- `AzureService.DeleteVM` (azure.go:220-257): fails iff the compute delete
call fails; on success the VM (with its NIC and public IP) is gone — NIC and
public-IP deletion failures are only logged and never surface. -/
def AzureDeleteVM (env : CloudEnv) (vmName : String) (w : World) :
    Except String World :=
  match env.deleteVMErr vmName w with
  | some e => .error e
  | none => .ok { w with vms := w.vms.filter (fun n => n ≠ vmName) }

/-- `IstioService.CleanupVMResources` (handlers.go:539-559): best-effort
deletion of the `vm-<name>` WorkloadEntry and `vm-<name>-service`
ServiceEntry; each failure is logged and the function always returns nil. -/
def CleanupVMResources (env : CloudEnv) (vmName : String) (w : World) : World :=
  let wen := "vm-" ++ vmName
  let w1 :=
    if env.kubeDeleteWorkloadFails wen w then w
    else { w with workloadEntries := w.workloadEntries.filter (fun n => n ≠ wen) }
  let sen := "vm-" ++ vmName ++ "-service"
  if env.kubeDeleteServiceFails sen w1 then w1
  else { w1 with serviceEntries := w1.serviceEntries.filter (fun n => n ≠ sen) }

/-- `VMService.CleanupDeployment` (vm.go:219-235): Istio resource cleanup
(its failures only logged), then `DeleteVM`, whose error is the only one
propagated. -/
def CleanupDeployment (env : CloudEnv) (vmName : String) (w : World) :
    Except String World :=
  AzureDeleteVM env vmName (CleanupVMResources env vmName w)

/-- Oracle for `GetVMDeploymentStatus` (vm.go:203-217): the result of the
single `azureService.GetVM` lookup, and the clock. -/
structure StatusEnv where
  getVM : Except String VMInfo
  now : Nat

/-- `VMService.GetVMDeploymentStatus` (vm.go:203-217).  `VMService` holds no
per-run state (vm.go:15-21), so the function depends only on the `GetVM`
lookup: it builds a fresh record whose unset fields keep their zero values. -/
def GetVMDeploymentStatus (env : StatusEnv) : Except String VMDeploymentStatus :=
  match env.getVM with
  | .error e => .error ("failed to get VM info: " ++ e)
  | .ok vm => .ok {
      VM := some vm, Status := "running", CurrentTask := "",
      CompletedTasks := [], Error := "", MeshFiles := none,
      CreatedResources := [], Timestamp := env.now }

/-- Whether an `Except` value is a success. -/
def exceptOk {ε α : Type} : Except ε α → Bool
  | .ok _ => true
  | .error _ => false

/-- The completed-task entries contributed by the post-boot task loop: one
entry per task whose execution succeeded, in order. -/
def taskSuccessEntries (env : DeployEnv) (vm : VMInfo)
    (tasks : List PostBootTask) : List String :=
  (tasks.filter fun t => exceptOk (executePostBootTask env vm t).1).map
    fun t => "task_" ++ t.Name ++ "_completed"

/-- The trace fragment of the post-boot task loop: every task is invoked, in
order, whatever the outcomes. -/
def tasksTrace (env : DeployEnv) (vm : VMInfo)
    (tasks : List PostBootTask) : List Effect :=
  tasks.flatMap fun t =>
    Effect.execTaskCall t.Name :: (executePostBootTask env vm t).2

/-- The completed-task entries contributed by the final validation step. -/
def validationEntries (env : DeployEnv) (request : VMDeploymentRequest) :
    List String :=
  if isMeshEnabled request then
    match env.validateConn with
    | .ok true => ["mesh_validation_passed"]
    | _ => []
  else []

/-- The trace fragment of the final validation step. -/
def validationTrace (request : VMDeploymentRequest)
    (vm : VMInfo) : List Effect :=
  if isMeshEnabled request then [Effect.validateConnectionCall vm.PrivateIP]
  else []

/-- One forward mutation of the status record only ever extends the two
append-only lists. -/
def StepExtends (a b : VMDeploymentStatus) : Prop :=
  a.CreatedResources <+: b.CreatedResources ∧
  a.CompletedTasks <+: b.CompletedTasks

/-- Completed-task entries contributed by the optional workload-registration
sub-step. -/
def wlEntries (env : DeployEnv) (mi : MeshIntegration) : List String :=
  if mi.CreateWorkloadEntry then
    match env.createWorkloadEntry with
    | .ok _ => ["workload_entry_created"]
    | .error _ => []
  else []

/-- Rollback-manifest entries contributed by the optional
workload-registration sub-step. -/
def wlResources (env : DeployEnv) (mi : MeshIntegration) (vm : VMInfo) :
    List String :=
  if mi.CreateWorkloadEntry then
    match env.createWorkloadEntry with
    | .ok _ => ["workloadentry:" ++ ("vm-" ++ vm.Name)]
    | .error _ => []
  else []

/-- Trace fragment of the optional workload-registration sub-step. -/
def wlTrace (mi : MeshIntegration) (vm : VMInfo) : List Effect :=
  if mi.CreateWorkloadEntry then [Effect.createWorkloadEntryCall vm.Name] else []

/-- Completed-task entries contributed by the optional service-registration
sub-step. -/
def seEntries (env : DeployEnv) (request : VMDeploymentRequest)
    (mi : MeshIntegration) : List String :=
  if mi.CreateServiceEntry ∧ request.ServiceName ≠ "" then
    match env.createServiceEntry with
    | .ok _ => ["service_entry_created"]
    | .error _ => []
  else []

/-- Rollback-manifest entries contributed by the optional
service-registration sub-step. -/
def seResources (env : DeployEnv) (request : VMDeploymentRequest)
    (mi : MeshIntegration) (vm : VMInfo) : List String :=
  if mi.CreateServiceEntry ∧ request.ServiceName ≠ "" then
    match env.createServiceEntry with
    | .ok _ => ["serviceentry:" ++ ("vm-" ++ vm.Name ++ "-service")]
    | .error _ => []
  else []

/-- Trace fragment of the optional service-registration sub-step. -/
def seTrace (request : VMDeploymentRequest) (mi : MeshIntegration)
    (vm : VMInfo) : List Effect :=
  if mi.CreateServiceEntry ∧ request.ServiceName ≠ "" then
    [Effect.createServiceEntryCall vm.Name vm.PrivateIP request.ServiceName
      mi.Namespace]
  else []

/-- `CurrentTask` after the optional registration sub-steps. -/
def meshCurrentTaskAfter (request : VMDeploymentRequest)
    (mi : MeshIntegration) (st : VMDeploymentStatus) : String :=
  if mi.CreateServiceEntry ∧ request.ServiceName ≠ "" then
    "creating_service_entry"
  else if mi.CreateWorkloadEntry then "creating_workload_entry"
  else st.CurrentTask

/-- The status record as initialised at vm.go:80-86. -/
def initialStatus (env : DeployEnv) : VMDeploymentStatus :=
  { VM := none, Status := "initializing", CurrentTask := "preparing_deployment",
    CompletedTasks := [], Error := "", MeshFiles := none,
    CreatedResources := [], Timestamp := env.now }

/-- The status after step 1 (cloud-init generated). -/
def statusCloudInit (env : DeployEnv) : VMDeploymentStatus :=
  { initialStatus env with
    CurrentTask := "generating_cloud_init",
    CompletedTasks := ["cloud_init_generated"] }

/-- The status after step 2 (VM created and recorded). -/
def statusCreated (env : DeployEnv) (vm : VMInfo) : VMDeploymentStatus :=
  { statusCloudInit env with
    CurrentTask := "creating_vm", VM := some vm,
    CompletedTasks := ["cloud_init_generated", "vm_created"],
    CreatedResources := ["vm:" ++ vm.Name] }

/-- The status after step 3 (VM ready). -/
def statusAfterReady (env : DeployEnv) (vm : VMInfo) : VMDeploymentStatus :=
  { statusCreated env vm with
    CurrentTask := "waiting_for_vm_ready",
    CompletedTasks := ["cloud_init_generated", "vm_created", "vm_ready"] }

/-- The status after step 4 (mesh files generated). -/
def statusAfterMeshFiles (env : DeployEnv) (vm : VMInfo) (mf : VMMeshFiles) :
    VMDeploymentStatus :=
  { statusAfterReady env vm with
    CurrentTask := "generating_mesh_files", MeshFiles := some mf,
    CompletedTasks :=
      ["cloud_init_generated", "vm_created", "vm_ready", "mesh_files_generated"] }

/-- The request with the service-registration directive turned off, other
fields unchanged. -/
def setCreateServiceEntryFalse (request : VMDeploymentRequest) :
    VMDeploymentRequest :=
  { request with MeshIntegration :=
      match request.MeshIntegration with
      | some mi => some { mi with CreateServiceEntry := false }
      | none => none }

/-- A concrete healthy VM. -/
def vm0 : VMInfo :=
  { Name := "vm1", ResourceGroup := "rg", Status := "VM running", Size := "s1",
    PrivateIP := "10.0.0.4", PublicIP := "1.2.3.4" }

/-- Concrete mesh files. -/
def mf0 : VMMeshFiles :=
  { ClusterEnv := "ce", MeshYAML := "my", RootCertPEM := "rc",
    IstioToken := "it", Hosts := "h" }

/-- An oracle on which every collaborator call succeeds. -/
def envOk : DeployEnv :=
  { cloudInit := .ok "ci", createVM := .ok vm0, waitReady := true,
    generateVMFiles := .ok mf0, createWorkloadEntry := .ok (),
    createServiceEntry := .ok (), validateConn := .ok true,
    parseDuration := fun s => if s = "120s" then some 120 else none, now := 7 }

/-- Mesh integration enabled, both registrations requested. -/
def mi0 : MeshIntegration :=
  { Enabled := true, Namespace := "default", Labels := [],
    CreateWorkloadEntry := true, CreateServiceEntry := true }

/-- A request with mesh integration enabled, service registration requested,
but an empty service name. -/
def reqC2 : VMDeploymentRequest :=
  { Name := "vm1", ServiceName := "", MeshIntegration := some mi0,
    PostBootTasks := [], AutoCleanup := false, TimeoutMinutes := 0 }

/-- A concrete `wait` task configured for 120 seconds. -/
def taskWait : PostBootTask :=
  { Name := "w1", Type' := "wait", Command := "", ExpectedResult := "",
    TimeoutSeconds := 0, RetryCount := 0,
    Parameters := [("duration", "120s")] }

/-- A concrete `script` task with retry count 2. -/
def taskScript : PostBootTask :=
  { Name := "s1", Type' := "script", Command := "echo hi",
    ExpectedResult := "", TimeoutSeconds := 30, RetryCount := 2,
    Parameters := [] }

/-- A request like `reqC2` but with a non-empty service name. -/
def reqC3 : VMDeploymentRequest := { reqC2 with ServiceName := "svc" }

/-- Oracle on which only workload registration fails. -/
def envWlFail : DeployEnv := { envOk with createWorkloadEntry := .error "boom" }

/-- Oracle on which only the final validation reports not-connected. -/
def envValFail : DeployEnv := { envOk with validateConn := .ok false }

/-- Cleanup oracle on which every collaborator call succeeds. -/
def cloudEnv0 : CloudEnv :=
  { deleteVMErr := fun _ _ => none,
    kubeDeleteWorkloadFails := fun _ _ => false,
    kubeDeleteServiceFails := fun _ _ => false }

/-- A world holding the resources of one deployment of `vm1`. -/
def w0 : World :=
  { vms := ["vm1"], workloadEntries := ["vm-vm1"],
    serviceEntries := ["vm-vm1-service"] }

/-- Status-lookup oracle whose `GetVM` succeeds. -/
def statusEnv0 : StatusEnv := { getVM := .ok vm0, now := 3 }

lemma stepExtends_self (a : VMDeploymentStatus) : StepExtends a a :=
  ⟨List.prefix_refl _, List.prefix_refl _⟩

lemma getLast?_cons_append_pair {α : Type} (a x y : α) (l : List α) :
    (a :: (l ++ [x, y])).getLast? = some y := by
  have h : a :: (l ++ [x, y]) = ((a :: l) ++ [x]) ++ [y] := by simp
  rw [h, List.getLast?_concat]

lemma chain_glue {α : Type} {R : α → α → Prop} (a b : α) (l₁ l₂ : List α)
    (h₁ : List.Chain' R (a :: l₁)) (hl : (a :: l₁).getLast? = some b)
    (h₂ : List.Chain' R (b :: l₂)) :
    List.Chain' R (a :: (l₁ ++ l₂)) := by
  induction l₁ generalizing a with
  | nil =>
    simp only [List.getLast?_singleton, Option.some.injEq] at hl
    subst hl
    simpa using h₂
  | cons c l ih =>
    rw [List.chain'_cons] at h₁
    rw [List.getLast?_cons_cons] at hl
    exact List.chain'_cons.mpr ⟨h₁.1, ih c h₁.2 hl⟩

lemma runPostBootTasks_status (env : DeployEnv) (vm : VMInfo) :
    ∀ (tasks : List PostBootTask) (st : VMDeploymentStatus), ∃ c,
      (runPostBootTasks env vm tasks st).1 =
        { st with
          CurrentTask := c,
          CompletedTasks := st.CompletedTasks ++ taskSuccessEntries env vm tasks } := by
  intro tasks
  induction tasks with
  | nil =>
    intro st
    exact ⟨st.CurrentTask, by simp [runPostBootTasks, taskSuccessEntries]⟩
  | cons task rest ih =>
    intro st
    rcases h : (executePostBootTask env vm task).1 with e | u
    · obtain ⟨c, hc⟩ := ih { st with CurrentTask := "executing_task_" ++ task.Name }
      refine ⟨c, ?_⟩
      simp only [runPostBootTasks, h]
      rw [hc]
      simp [taskSuccessEntries, exceptOk, h]
    · obtain ⟨c, hc⟩ := ih { st with
        CurrentTask := "executing_task_" ++ task.Name,
        CompletedTasks := st.CompletedTasks ++ ["task_" ++ task.Name ++ "_completed"] }
      refine ⟨c, ?_⟩
      simp only [runPostBootTasks, h]
      rw [hc]
      simp [taskSuccessEntries, exceptOk, h]

lemma runPostBootTasks_trace (env : DeployEnv) (vm : VMInfo) :
    ∀ (tasks : List PostBootTask) (st : VMDeploymentStatus),
      (runPostBootTasks env vm tasks st).2.1 = tasksTrace env vm tasks := by
  intro tasks
  induction tasks with
  | nil => intro st; simp [runPostBootTasks, tasksTrace]
  | cons task rest ih =>
    intro st
    rcases h : (executePostBootTask env vm task).1 with e | u <;>
      simp [runPostBootTasks, h, ih, tasksTrace]

lemma runPostBootTasks_chain (env : DeployEnv) (vm : VMInfo) :
    ∀ (tasks : List PostBootTask) (st : VMDeploymentStatus),
      List.Chain' StepExtends (st :: (runPostBootTasks env vm tasks st).2.2) ∧
      (st :: (runPostBootTasks env vm tasks st).2.2).getLast? =
        some (runPostBootTasks env vm tasks st).1 := by
  intro tasks
  induction tasks with
  | nil => intro st; simp [runPostBootTasks]
  | cons task rest ih =>
    intro st
    rcases h : (executePostBootTask env vm task).1 with e | u
    · have h2 := ih { st with CurrentTask := "executing_task_" ++ task.Name }
      constructor
      · simp only [runPostBootTasks, h]
        exact List.chain'_cons.mpr ⟨⟨List.prefix_refl _, List.prefix_refl _⟩, h2.1⟩
      · simp only [runPostBootTasks, h, List.getLast?_cons_cons]
        exact h2.2
    · have h2 := ih { st with
        CurrentTask := "executing_task_" ++ task.Name,
        CompletedTasks := st.CompletedTasks ++ ["task_" ++ task.Name ++ "_completed"] }
      constructor
      · simp only [runPostBootTasks, h]
        exact List.chain'_cons.mpr
          ⟨⟨List.prefix_refl _, List.prefix_append _ _⟩, h2.1⟩
      · simp only [runPostBootTasks, h, List.getLast?_cons_cons]
        exact h2.2

lemma finalValidation_spec (env : DeployEnv) (request : VMDeploymentRequest)
    (vm : VMInfo) (st : VMDeploymentStatus) :
    finalValidation env request vm st =
      ({ st with
          CurrentTask := "final_validation",
          CompletedTasks := st.CompletedTasks ++ validationEntries env request },
       validationTrace request vm,
       [{ st with
          CurrentTask := "final_validation",
          CompletedTasks := st.CompletedTasks ++ validationEntries env request }]) := by
  rcases hm : isMeshEnabled request with _ | _
  · simp [finalValidation, validationEntries, validationTrace, hm]
  · rcases hv : env.validateConn with e | b
    · simp [finalValidation, validationEntries, validationTrace, hm, hv]
    · rcases b with _ | _ <;>
        simp [finalValidation, validationEntries, validationTrace, hm, hv]

lemma meshOptionalSteps_spec (env : DeployEnv) (request : VMDeploymentRequest)
    (mi : MeshIntegration) (vm : VMInfo) (st : VMDeploymentStatus) :
    (meshOptionalSteps env request mi vm st).1 =
      { st with
        CurrentTask := meshCurrentTaskAfter request mi st,
        CompletedTasks :=
          st.CompletedTasks ++ (wlEntries env mi ++ seEntries env request mi),
        CreatedResources :=
          st.CreatedResources ++
            (wlResources env mi vm ++ seResources env request mi vm) } ∧
    (meshOptionalSteps env request mi vm st).2.1 =
      wlTrace mi vm ++ seTrace request mi vm := by
  rcases hw : mi.CreateWorkloadEntry <;>
    rcases hcw : env.createWorkloadEntry with e | u <;>
    by_cases hs : (mi.CreateServiceEntry ∧ request.ServiceName ≠ "") <;>
    rcases hcs : env.createServiceEntry with e2 | u2 <;>
    constructor <;>
    simp [meshOptionalSteps, hw, hcw, hs, hcs, wlEntries, seEntries,
      wlResources, seResources, wlTrace, seTrace, meshCurrentTaskAfter]

lemma meshOptionalSteps_chain (env : DeployEnv) (request : VMDeploymentRequest)
    (mi : MeshIntegration) (vm : VMInfo) (st : VMDeploymentStatus) :
    List.Chain' StepExtends (st :: (meshOptionalSteps env request mi vm st).2.2) ∧
    (st :: (meshOptionalSteps env request mi vm st).2.2).getLast? =
      some (meshOptionalSteps env request mi vm st).1 := by
  rcases hw : mi.CreateWorkloadEntry <;>
    rcases hcw : env.createWorkloadEntry with e | u <;>
    by_cases hs : (mi.CreateServiceEntry ∧ request.ServiceName ≠ "") <;>
    rcases hcs : env.createServiceEntry with e2 | u2 <;>
    constructor <;>
    simp [meshOptionalSteps, hw, hcw, hs, hcs, StepExtends,
      List.prefix_append]

lemma deployTail_spec (env : DeployEnv) (request : VMDeploymentRequest)
    (vm : VMInfo) (st : VMDeploymentStatus) (trPre : List Effect)
    (snPre : List VMDeploymentStatus) :
    ∃ sn,
      deployTail env request vm st trPre snPre = {
        status := { st with
          Status := "completed", CurrentTask := "", Timestamp := env.now,
          CompletedTasks := st.CompletedTasks ++
            (taskSuccessEntries env vm request.PostBootTasks ++
              validationEntries env request) },
        err := none,
        trace := trPre ++
          (tasksTrace env vm request.PostBootTasks ++ validationTrace request vm),
        snapshots := snPre ++ sn } ∧
      List.Chain' StepExtends (st :: sn) ∧
      (st :: sn).getLast? = some (deployTail env request vm st trPre snPre).status := by
  obtain ⟨c, hst⟩ := runPostBootTasks_status env vm request.PostBootTasks st
  have htr := runPostBootTasks_trace env vm request.PostBootTasks st
  have hch := runPostBootTasks_chain env vm request.PostBootTasks st
  have hfv := finalValidation_spec env request vm
    (runPostBootTasks env vm request.PostBootTasks st).1
  refine ⟨(runPostBootTasks env vm request.PostBootTasks st).2.2 ++
    [(finalValidation env request vm
        (runPostBootTasks env vm request.PostBootTasks st).1).1,
     (deployTail env request vm st trPre snPre).status], ?_, ?_, ?_⟩
  · simp only [deployTail]
    rw [hfv]
    simp [hst, htr, List.append_assoc]
  · refine chain_glue _ (runPostBootTasks env vm request.PostBootTasks st).1 _ _
      hch.1 hch.2 ?_
    simp only [deployTail]
    rw [hfv]
    simp only [List.chain'_cons, List.chain'_singleton, and_true]
    constructor
    · exact ⟨List.prefix_refl _, List.prefix_append _ _⟩
    · exact ⟨List.prefix_refl _, List.prefix_refl _⟩
  · simp only [deployTail]
    rw [hfv]
    exact getLast?_cons_append_pair _ _ _ _

/-- The manifest loop of the auto-cleanup helper contributes nothing: its
body only logs, so the whole helper issues exactly one `DeleteVM` call. -/
lemma cleanupDeployment_eq (vmName : String) (createdResources : List String) :
    cleanupDeployment vmName createdResources = [Effect.deleteVMCall vmName] := by
  induction createdResources with
  | nil => rfl
  | cons r rest ih => simp [cleanupDeployment, cleanupResourceStep]

lemma deployVM_meshNone (env : DeployEnv) (request : VMDeploymentRequest)
    (ci : String) (vm : VMInfo)
    (h1 : env.cloudInit = .ok ci) (h2 : env.createVM = .ok vm)
    (h3 : env.waitReady = true) (hmi : request.MeshIntegration = none) :
    deployVM env request =
      deployTail env request vm (statusAfterReady env vm)
        [Effect.createVMCall request.Name]
        [initialStatus env, statusCloudInit env, statusCreated env vm,
         statusAfterReady env vm] := by
  simp [deployVM, h1, h2, h3, hmi, initialStatus, statusCloudInit,
    statusCreated, statusAfterReady]

lemma deployVM_meshDisabled (env : DeployEnv) (request : VMDeploymentRequest)
    (ci : String) (vm : VMInfo) (mi : MeshIntegration)
    (h1 : env.cloudInit = .ok ci) (h2 : env.createVM = .ok vm)
    (h3 : env.waitReady = true) (hmi : request.MeshIntegration = some mi)
    (hen : mi.Enabled = false) :
    deployVM env request =
      deployTail env request vm (statusAfterReady env vm)
        [Effect.createVMCall request.Name]
        [initialStatus env, statusCloudInit env, statusCreated env vm,
         statusAfterReady env vm] := by
  simp [deployVM, h1, h2, h3, hmi, hen, initialStatus, statusCloudInit,
    statusCreated, statusAfterReady]

lemma deployVM_meshOk (env : DeployEnv) (request : VMDeploymentRequest)
    (ci : String) (vm : VMInfo) (mi : MeshIntegration) (mf : VMMeshFiles)
    (h1 : env.cloudInit = .ok ci) (h2 : env.createVM = .ok vm)
    (h3 : env.waitReady = true) (hmi : request.MeshIntegration = some mi)
    (hen : mi.Enabled = true) (hgf : env.generateVMFiles = .ok mf) :
    deployVM env request =
      deployTail env request vm
        (meshOptionalSteps env request mi vm (statusAfterMeshFiles env vm mf)).1
        ([Effect.createVMCall request.Name,
          Effect.generateVMFilesCall vm.Name vm.PrivateIP mi.Namespace] ++
          (meshOptionalSteps env request mi vm (statusAfterMeshFiles env vm mf)).2.1)
        ([initialStatus env, statusCloudInit env, statusCreated env vm,
          statusAfterReady env vm, statusAfterMeshFiles env vm mf] ++
          (meshOptionalSteps env request mi vm (statusAfterMeshFiles env vm mf)).2.2) := by
  simp [deployVM, h1, h2, h3, hmi, hen, hgf, initialStatus, statusCloudInit,
    statusCreated, statusAfterReady, statusAfterMeshFiles]

lemma deployVM_meshFail (env : DeployEnv) (request : VMDeploymentRequest)
    (ci : String) (vm : VMInfo) (mi : MeshIntegration) (e : String)
    (h1 : env.cloudInit = .ok ci) (h2 : env.createVM = .ok vm)
    (h3 : env.waitReady = true) (hmi : request.MeshIntegration = some mi)
    (hen : mi.Enabled = true) (hgf : env.generateVMFiles = .error e) :
    deployVM env request = {
      status := { statusAfterReady env vm with
        CurrentTask := "generating_mesh_files", Status := "failed",
        Error := "failed to generate mesh files: " ++ e },
      err := some e,
      trace := [Effect.createVMCall request.Name,
        Effect.generateVMFilesCall vm.Name vm.PrivateIP mi.Namespace] ++
        (if request.AutoCleanup then [Effect.deleteVMCall request.Name] else []),
      snapshots := [initialStatus env, statusCloudInit env, statusCreated env vm,
        statusAfterReady env vm,
        { statusAfterReady env vm with
          CurrentTask := "generating_mesh_files", Status := "failed",
          Error := "failed to generate mesh files: " ++ e }] } := by
  simp [deployVM, h1, h2, h3, hmi, hen, hgf, initialStatus, statusCloudInit,
    statusCreated, statusAfterReady, statusAfterMeshFiles, cleanupDeployment_eq]

lemma deployVM_cloudInitFail (env : DeployEnv) (request : VMDeploymentRequest)
    (e : String) (h1 : env.cloudInit = .error e) :
    deployVM env request = {
      status := { initialStatus env with
        CurrentTask := "generating_cloud_init", Status := "failed",
        Error := "failed to generate cloud-init data: " ++ e },
      err := some e, trace := [],
      snapshots := [initialStatus env,
        { initialStatus env with
          CurrentTask := "generating_cloud_init", Status := "failed",
          Error := "failed to generate cloud-init data: " ++ e }] } := by
  simp [deployVM, h1, initialStatus]

lemma deployVM_createVMFail (env : DeployEnv) (request : VMDeploymentRequest)
    (ci e : String) (h1 : env.cloudInit = .ok ci)
    (h2 : env.createVM = .error e) :
    deployVM env request = {
      status := { statusCloudInit env with
        CurrentTask := "creating_vm", Status := "failed",
        Error := "failed to create VM: " ++ e },
      err := some e, trace := [Effect.createVMCall request.Name],
      snapshots := [initialStatus env, statusCloudInit env,
        { statusCloudInit env with
          CurrentTask := "creating_vm", Status := "failed",
          Error := "failed to create VM: " ++ e }] } := by
  simp [deployVM, h1, h2, initialStatus, statusCloudInit]

lemma deployVM_waitFail (env : DeployEnv) (request : VMDeploymentRequest)
    (ci : String) (vm : VMInfo) (h1 : env.cloudInit = .ok ci)
    (h2 : env.createVM = .ok vm) (h3 : env.waitReady = false) :
    deployVM env request = {
      status := { statusCreated env vm with
        CurrentTask := "waiting_for_vm_ready", Status := "failed",
        Error := "VM failed to become ready: timeout waiting for VM to be ready" },
      err := some "timeout waiting for VM to be ready",
      trace := [Effect.createVMCall request.Name] ++
        (if request.AutoCleanup then [Effect.deleteVMCall request.Name] else []),
      snapshots := [initialStatus env, statusCloudInit env, statusCreated env vm,
        { statusCreated env vm with
          CurrentTask := "waiting_for_vm_ready", Status := "failed",
          Error := "VM failed to become ready: timeout waiting for VM to be ready" }] } := by
  simp [deployVM, h1, h2, h3, initialStatus, statusCloudInit, statusCreated,
    cleanupDeployment_eq]

lemma chain_head4 (env : DeployEnv) (vm : VMInfo) :
    List.Chain' StepExtends [initialStatus env, statusCloudInit env,
      statusCreated env vm, statusAfterReady env vm] := by
  simp only [List.chain'_cons, List.chain'_singleton, and_true, StepExtends,
    initialStatus, statusCloudInit, statusCreated, statusAfterReady]
  refine ⟨⟨?_, ?_⟩, ⟨?_, ?_⟩, ?_, ?_⟩ <;>
    first
      | exact List.nil_prefix
      | exact List.prefix_rfl
      | decide

lemma chain_head5 (env : DeployEnv) (vm : VMInfo) (mf : VMMeshFiles) :
    List.Chain' StepExtends [initialStatus env, statusCloudInit env,
      statusCreated env vm, statusAfterReady env vm,
      statusAfterMeshFiles env vm mf] := by
  simp only [List.chain'_cons, List.chain'_singleton, and_true, StepExtends,
    initialStatus, statusCloudInit, statusCreated, statusAfterReady,
    statusAfterMeshFiles]
  refine ⟨⟨?_, ?_⟩, ⟨?_, ?_⟩, ⟨?_, ?_⟩, ?_, ?_⟩ <;>
    first
      | exact List.nil_prefix
      | exact List.prefix_rfl
      | decide

/-- Throughout every `DeployVM` run, consecutive values of the status record
only ever extend `CreatedResources` and `CompletedTasks`: both lists are
append-only for the whole forward run. -/
lemma deployVM_snapshots_chain (env : DeployEnv) (request : VMDeploymentRequest) :
    List.Chain' StepExtends (deployVM env request).snapshots := by
  rcases h1 : env.cloudInit with e | ci
  · rw [deployVM_cloudInitFail env request e h1]
    exact List.chain'_cons.mpr
      ⟨⟨List.prefix_rfl, List.prefix_rfl⟩, List.chain'_singleton _⟩
  rcases h2 : env.createVM with e | vm
  · rw [deployVM_createVMFail env request ci e h1 h2]
    refine List.chain'_cons.mpr ⟨⟨ List.nil_prefix, List.nil_prefix⟩,
      List.chain'_cons.mpr ⟨⟨List.prefix_rfl, List.prefix_rfl⟩,
        List.chain'_singleton _⟩⟩
  rcases h3 : env.waitReady
  · rw [deployVM_waitFail env request ci vm h1 h2 h3]
    refine List.chain'_cons.mpr ⟨⟨ List.nil_prefix, List.nil_prefix⟩,
      List.chain'_cons.mpr ⟨⟨ List.nil_prefix, ⟨["vm_created"], rfl⟩⟩,
        List.chain'_cons.mpr ⟨⟨List.prefix_rfl, List.prefix_rfl⟩,
          List.chain'_singleton _⟩⟩⟩
  rcases hmi : request.MeshIntegration with _ | mi
  · obtain ⟨sn, heq, hch, hlast⟩ :=
      deployTail_spec env request vm (statusAfterReady env vm)
        [Effect.createVMCall request.Name]
        [initialStatus env, statusCloudInit env, statusCreated env vm,
         statusAfterReady env vm]
    rw [deployVM_meshNone env request ci vm h1 h2 h3 hmi, heq]
    exact chain_glue (initialStatus env) (statusAfterReady env vm)
      [statusCloudInit env, statusCreated env vm, statusAfterReady env vm] sn
      (chain_head4 env vm) rfl hch
  rcases hen : mi.Enabled
  · obtain ⟨sn, heq, hch, hlast⟩ :=
      deployTail_spec env request vm (statusAfterReady env vm)
        [Effect.createVMCall request.Name]
        [initialStatus env, statusCloudInit env, statusCreated env vm,
         statusAfterReady env vm]
    rw [deployVM_meshDisabled env request ci vm mi h1 h2 h3 hmi hen, heq]
    exact chain_glue (initialStatus env) (statusAfterReady env vm)
      [statusCloudInit env, statusCreated env vm, statusAfterReady env vm] sn
      (chain_head4 env vm) rfl hch
  rcases hgf : env.generateVMFiles with e | mf
  · rw [deployVM_meshFail env request ci vm mi e h1 h2 h3 hmi hen hgf]
    refine List.chain'_cons.mpr ⟨⟨ List.nil_prefix, List.nil_prefix⟩,
      List.chain'_cons.mpr ⟨⟨ List.nil_prefix, ⟨["vm_created"], rfl⟩⟩,
        List.chain'_cons.mpr ⟨⟨List.prefix_rfl, ⟨["vm_ready"], rfl⟩⟩,
          List.chain'_cons.mpr ⟨⟨List.prefix_rfl, List.prefix_rfl⟩,
            List.chain'_singleton _⟩⟩⟩⟩
  · obtain ⟨hmchain, hmlast⟩ :=
      meshOptionalSteps_chain env request mi vm (statusAfterMeshFiles env vm mf)
    obtain ⟨sn, heq, hch, hlast⟩ :=
      deployTail_spec env request vm
        (meshOptionalSteps env request mi vm (statusAfterMeshFiles env vm mf)).1
        ([Effect.createVMCall request.Name,
          Effect.generateVMFilesCall vm.Name vm.PrivateIP mi.Namespace] ++
          (meshOptionalSteps env request mi vm (statusAfterMeshFiles env vm mf)).2.1)
        ([initialStatus env, statusCloudInit env, statusCreated env vm,
          statusAfterReady env vm, statusAfterMeshFiles env vm mf] ++
          (meshOptionalSteps env request mi vm (statusAfterMeshFiles env vm mf)).2.2)
    rw [deployVM_meshOk env request ci vm mi mf h1 h2 h3 hmi hen hgf, heq,
      List.append_assoc]
    have hinner := chain_glue (statusAfterMeshFiles env vm mf)
      (meshOptionalSteps env request mi vm (statusAfterMeshFiles env vm mf)).1
      (meshOptionalSteps env request mi vm (statusAfterMeshFiles env vm mf)).2.2
      sn hmchain hmlast hch
    exact chain_glue (initialStatus env) (statusAfterMeshFiles env vm mf)
      [statusCloudInit env, statusCreated env vm, statusAfterReady env vm,
       statusAfterMeshFiles env vm mf]
      ((meshOptionalSteps env request mi vm (statusAfterMeshFiles env vm mf)).2.2
        ++ sn)
      (chain_head5 env vm mf) rfl hinner

/-- Closed form of a run that survives provisioning with mesh integration
enabled and mesh files generated: it always completes. -/
lemma deployVM_meshOk_run (env : DeployEnv) (request : VMDeploymentRequest)
    (ci : String) (vm : VMInfo) (mi : MeshIntegration) (mf : VMMeshFiles)
    (h1 : env.cloudInit = .ok ci) (h2 : env.createVM = .ok vm)
    (h3 : env.waitReady = true) (hmi : request.MeshIntegration = some mi)
    (hen : mi.Enabled = true) (hgf : env.generateVMFiles = .ok mf) :
    (deployVM env request).status = {
        VM := some vm, Status := "completed", CurrentTask := "", Error := "",
        MeshFiles := some mf,
        CompletedTasks :=
          ["cloud_init_generated", "vm_created", "vm_ready",
            "mesh_files_generated"] ++
          ((wlEntries env mi ++ seEntries env request mi) ++
            (taskSuccessEntries env vm request.PostBootTasks ++
              validationEntries env request)),
        CreatedResources :=
          ["vm:" ++ vm.Name] ++
            (wlResources env mi vm ++ seResources env request mi vm),
        Timestamp := env.now } ∧
      (deployVM env request).err = none ∧
      (deployVM env request).trace =
        [Effect.createVMCall request.Name,
          Effect.generateVMFilesCall vm.Name vm.PrivateIP mi.Namespace] ++
        ((wlTrace mi vm ++ seTrace request mi vm) ++
          (tasksTrace env vm request.PostBootTasks ++
            validationTrace request vm)) := by
  obtain ⟨sn, heq, hch, hlast⟩ :=
    deployTail_spec env request vm
      (meshOptionalSteps env request mi vm (statusAfterMeshFiles env vm mf)).1
      ([Effect.createVMCall request.Name,
        Effect.generateVMFilesCall vm.Name vm.PrivateIP mi.Namespace] ++
        (meshOptionalSteps env request mi vm (statusAfterMeshFiles env vm mf)).2.1)
      ([initialStatus env, statusCloudInit env, statusCreated env vm,
        statusAfterReady env vm, statusAfterMeshFiles env vm mf] ++
        (meshOptionalSteps env request mi vm (statusAfterMeshFiles env vm mf)).2.2)
  obtain ⟨hms, hmt⟩ :=
    meshOptionalSteps_spec env request mi vm (statusAfterMeshFiles env vm mf)
  rw [deployVM_meshOk env request ci vm mi mf h1 h2 h3 hmi hen hgf, heq]
  refine ⟨?_, rfl, ?_⟩
  · rw [hms]
    simp [statusAfterMeshFiles, statusAfterReady, statusCreated,
      statusCloudInit, initialStatus, List.append_assoc]
  · rw [hmt]
    simp [List.append_assoc]

/-- Closed form of a run that survives provisioning with mesh integration
absent or disabled: it always completes, with no mesh entries anywhere. -/
lemma deployVM_noMesh_run (env : DeployEnv) (request : VMDeploymentRequest)
    (ci : String) (vm : VMInfo)
    (h1 : env.cloudInit = .ok ci) (h2 : env.createVM = .ok vm)
    (h3 : env.waitReady = true) (hmm : isMeshEnabled request = false) :
    (deployVM env request).status = {
        VM := some vm, Status := "completed", CurrentTask := "", Error := "",
        MeshFiles := none,
        CompletedTasks :=
          ["cloud_init_generated", "vm_created", "vm_ready"] ++
            taskSuccessEntries env vm request.PostBootTasks,
        CreatedResources := ["vm:" ++ vm.Name],
        Timestamp := env.now } ∧
      (deployVM env request).err = none ∧
      (deployVM env request).trace =
        [Effect.createVMCall request.Name] ++
          tasksTrace env vm request.PostBootTasks := by
  obtain ⟨sn, heq, hch, hlast⟩ :=
    deployTail_spec env request vm (statusAfterReady env vm)
      [Effect.createVMCall request.Name]
      [initialStatus env, statusCloudInit env, statusCreated env vm,
       statusAfterReady env vm]
  have hve : validationEntries env request = [] := by
    simp [validationEntries, hmm]
  have hvt : validationTrace request vm = [] := by
    simp [validationTrace, hmm]
  rcases hmi : request.MeshIntegration with _ | mi
  · rw [deployVM_meshNone env request ci vm h1 h2 h3 hmi, heq]
    refine ⟨?_, rfl, ?_⟩
    · simp [hve, statusAfterReady, statusCreated, statusCloudInit,
        initialStatus, List.append_assoc]
    · simp [hvt]
  · have hen : mi.Enabled = false := by
      simp [isMeshEnabled, hmi] at hmm
      exact hmm
    rw [deployVM_meshDisabled env request ci vm mi h1 h2 h3 hmi hen, heq]
    refine ⟨?_, rfl, ?_⟩
    · simp [hve, statusAfterReady, statusCreated, statusCloudInit,
        initialStatus, List.append_assoc]
    · simp [hvt]

lemma ne_of_heads (s t : String) (a b : Char) (hs : s.data.head? = some a)
    (ht : t.data.head? = some b) (hab : a ≠ b) : s ≠ t :=
  fun he => hab (Option.some.inj ((he ▸ hs).symm.trans ht))

lemma taskEntry_head (n : String) :
    ("task_" ++ n ++ "_completed").data.head? = some 't' := rfl

lemma wlResource_head (n : String) :
    ("workloadentry:" ++ n).data.head? = some 'w' := rfl

lemma seResource_head (n : String) :
    ("serviceentry:" ++ n).data.head? = some 's' := rfl

lemma vmResource_head (n : String) :
    ("vm:" ++ n).data.head? = some 'v' := rfl

lemma not_mem_taskSuccessEntries (env : DeployEnv) (vm : VMInfo)
    (tasks : List PostBootTask) (s : String) (h : s.data.head? ≠ some 't') :
    s ∉ taskSuccessEntries env vm tasks := by
  intro hs
  simp only [taskSuccessEntries, List.mem_map] at hs
  obtain ⟨t, ht, hst⟩ := hs
  exact h (hst ▸ taskEntry_head t.Name)

lemma mem_wlEntries (env : DeployEnv) (mi : MeshIntegration) (s : String)
    (h : s ∈ wlEntries env mi) : s = "workload_entry_created" := by
  unfold wlEntries at h
  split at h
  · split at h <;> simp_all
  · simp_all

lemma mem_seEntries (env : DeployEnv) (request : VMDeploymentRequest)
    (mi : MeshIntegration) (s : String) (h : s ∈ seEntries env request mi) :
    s = "service_entry_created" := by
  unfold seEntries at h
  split at h
  · split at h <;> simp_all
  · simp_all

lemma mem_validationEntries (env : DeployEnv) (request : VMDeploymentRequest)
    (s : String) (h : s ∈ validationEntries env request) :
    s = "mesh_validation_passed" := by
  unfold validationEntries at h
  split at h
  · split at h <;> simp_all
  · simp_all

lemma mem_wlResources (env : DeployEnv) (mi : MeshIntegration) (vm : VMInfo)
    (s : String) (h : s ∈ wlResources env mi vm) :
    s = "workloadentry:" ++ ("vm-" ++ vm.Name) := by
  unfold wlResources at h
  split at h
  · split at h <;> simp_all
  · simp_all

lemma mem_seResources (env : DeployEnv) (request : VMDeploymentRequest)
    (mi : MeshIntegration) (vm : VMInfo) (s : String)
    (h : s ∈ seResources env request mi vm) :
    s = "serviceentry:" ++ ("vm-" ++ vm.Name ++ "-service") := by
  unfold seResources at h
  split at h
  · split at h <;> simp_all
  · simp_all

lemma executePostBootTask_trace_shape (env : DeployEnv) (vm : VMInfo)
    (t : PostBootTask) :
    (executePostBootTask env vm t).2 = [] ∨
      ∃ k, (executePostBootTask env vm t).2 = [Effect.sleepFor k] := by
  unfold executePostBootTask
  split <;> simp

lemma mem_tasksTrace (env : DeployEnv) (vm : VMInfo)
    (tasks : List PostBootTask) (e : Effect) (he : e ∈ tasksTrace env vm tasks) :
    (∃ n, e = Effect.execTaskCall n) ∨ ∃ k, e = Effect.sleepFor k := by
  simp only [tasksTrace, List.mem_flatMap] at he
  obtain ⟨t, ht, hm⟩ := he
  rcases List.mem_cons.mp hm with hm | hm
  · exact Or.inl ⟨t.Name, hm⟩
  · rcases executePostBootTask_trace_shape env vm t with hs | ⟨k, hs⟩
    · rw [hs] at hm
      simp at hm
    · rw [hs] at hm
      simp at hm
      exact Or.inr ⟨k, hm⟩

/-- C1: on a failed run with auto-cleanup, `cleanupDeployment` does not walk
the rollback manifest in reverse invoking per-kind delete/deregister
operations: whatever the manifest contains, the loop body only logs, and the
single call issued is the VM delete.  Evaluated at the failing input of a
manifest holding an instance, a workload registration and a service
registration. -/
theorem C1_cleanup_issues_only_vm_delete :
    cleanupDeployment "test"
      ["vm:test", "workloadentry:vm-test", "serviceentry:vm-test-service"] =
      [Effect.deleteVMCall "test"] ∧
    Effect.istioCleanupCall "test" ∉
      cleanupDeployment "test"
        ["vm:test", "workloadentry:vm-test", "serviceentry:vm-test-service"] := by
  constructor
  · rfl
  · decide

/-- C2, counterexample: a deployment request with mesh integration enabled,
service registration requested and an empty service name is not rejected:
on an all-success oracle the run creates the VM, records it, and completes
with no error, contradicting the claimed pre-provisioning validation
failure. -/
theorem C2_counterexample :
    (deployVM envOk reqC2).err = none ∧
    (deployVM envOk reqC2).status.Status = "completed" ∧
    Effect.createVMCall "vm1" ∈ (deployVM envOk reqC2).trace ∧
    (deployVM envOk reqC2).status.CreatedResources =
      ["vm:vm1", "workloadentry:vm-vm1"] := by
  refine ⟨rfl, rfl, by decide, by decide⟩

/-- C2, amended: a request with mesh integration enabled, service
registration requested and an empty service name is not rejected — the run
is observably identical to the same request without service registration
requested; the service-registration sub-step is skipped: no
service-registration call is issued, no serviceentry resource is recorded,
and no service-registration completed entry appears. -/
theorem C2_amended (env : DeployEnv) (request : VMDeploymentRequest)
    (hs : request.ServiceName = "") :
    (deployVM env request).status =
      (deployVM env (setCreateServiceEntryFalse request)).status ∧
    (deployVM env request).err =
      (deployVM env (setCreateServiceEntryFalse request)).err ∧
    (deployVM env request).trace =
      (deployVM env (setCreateServiceEntryFalse request)).trace ∧
    (∀ a b c d, Effect.createServiceEntryCall a b c d ∉
      (deployVM env request).trace) ∧
    (∀ n, ("serviceentry:" ++ n) ∉
      (deployVM env request).status.CreatedResources) ∧
    "service_entry_created" ∉ (deployVM env request).status.CompletedTasks := by
  have hvm : ∀ w : VMInfo, ∀ n, ("serviceentry:" ++ n) ≠ ("vm:" ++ w.Name) :=
    fun w n => ne_of_heads _ _ 's' 'v' (seResource_head n)
      (vmResource_head w.Name) (by decide)
  rcases h1 : env.cloudInit with e | ci
  · rw [deployVM_cloudInitFail env request e h1,
      deployVM_cloudInitFail env (setCreateServiceEntryFalse request) e h1]
    simp [initialStatus]
  rcases h2 : env.createVM with e | vm
  · rw [deployVM_createVMFail env request ci e h1 h2,
      deployVM_createVMFail env (setCreateServiceEntryFalse request) ci e h1 h2]
    simp [setCreateServiceEntryFalse, initialStatus, statusCloudInit]
  have htse : ∀ tasks, "service_entry_created" ∉
      taskSuccessEntries env vm tasks := fun tasks =>
    not_mem_taskSuccessEntries env vm tasks _ (by decide)
  rcases h3 : env.waitReady
  · rw [deployVM_waitFail env request ci vm h1 h2 h3,
      deployVM_waitFail env (setCreateServiceEntryFalse request) ci vm h1 h2 h3]
    rcases hac : request.AutoCleanup <;>
      simp [setCreateServiceEntryFalse, hac, initialStatus, statusCloudInit,
        statusCreated, hvm vm]
  by_cases hmm : isMeshEnabled request = false
  · have hmm' : isMeshEnabled (setCreateServiceEntryFalse request) = false := by
      rcases hmi : request.MeshIntegration with _ | mi <;>
        simp_all [setCreateServiceEntryFalse, isMeshEnabled]
    have hA := deployVM_noMesh_run env request ci vm h1 h2 h3 hmm
    have hB := deployVM_noMesh_run env (setCreateServiceEntryFalse request)
      ci vm h1 h2 h3 hmm'
    refine ⟨?_, ?_, ?_, ?_, ?_, ?_⟩
    · rw [hA.1, hB.1]
      simp [setCreateServiceEntryFalse]
    · rw [hA.2.1, hB.2.1]
    · rw [hA.2.2, hB.2.2]
      simp [setCreateServiceEntryFalse]
    · intro a b c d hmem
      rw [hA.2.2] at hmem
      rcases List.mem_append.mp hmem with hmem | hmem
      · simp at hmem
      · rcases mem_tasksTrace env vm _ _ hmem with ⟨n, hn⟩ | ⟨k, hk⟩ <;> simp_all
    · intro n hmem
      rw [hA.1] at hmem
      simp only [List.mem_singleton] at hmem
      exact hvm vm n hmem
    · intro hmem
      rw [hA.1] at hmem
      simp [htse request.PostBootTasks] at hmem
  · rcases hmi : request.MeshIntegration with _ | mi
    · simp [isMeshEnabled, hmi] at hmm
    have hen : mi.Enabled = true := by
      simp [isMeshEnabled, hmi] at hmm
      exact hmm
    have hmi' : (setCreateServiceEntryFalse request).MeshIntegration =
        some { mi with CreateServiceEntry := false } := by
      simp [setCreateServiceEntryFalse, hmi]
    have hse : seEntries env request mi = [] := by
      simp [seEntries, hs]
    have hsr : seResources env request mi vm = [] := by
      simp [seResources, hs]
    have hst : seTrace request mi vm = [] := by
      simp [seTrace, hs]
    have hwl : ∀ x, x ∈ wlEntries env mi → x = "workload_entry_created" :=
      fun x => mem_wlEntries env mi x
    rcases hgf : env.generateVMFiles with e | mf
    · rw [deployVM_meshFail env request ci vm mi e h1 h2 h3 hmi hen hgf,
        deployVM_meshFail env (setCreateServiceEntryFalse request) ci vm
          { mi with CreateServiceEntry := false } e h1 h2 h3 hmi' hen hgf]
      rcases hac : request.AutoCleanup <;>
        simp [setCreateServiceEntryFalse, hac, initialStatus, statusCloudInit,
          statusCreated, statusAfterReady, hvm vm]
    · have hA := deployVM_meshOk_run env request ci vm mi mf h1 h2 h3 hmi hen hgf
      have hB := deployVM_meshOk_run env (setCreateServiceEntryFalse request)
        ci vm { mi with CreateServiceEntry := false } mf h1 h2 h3 hmi' hen hgf
      refine ⟨?_, ?_, ?_, ?_, ?_, ?_⟩
      · rw [hA.1, hB.1]
        simp [setCreateServiceEntryFalse, seEntries, seResources, wlEntries,
          wlResources, validationEntries, isMeshEnabled, hmi, hs]
      · rw [hA.2.1, hB.2.1]
      · rw [hA.2.2, hB.2.2]
        simp [setCreateServiceEntryFalse, seTrace, wlTrace, validationTrace,
          isMeshEnabled, hmi, hs]
      · intro a b c d hmem
        rw [hA.2.2, hst] at hmem
        simp only [List.mem_append, List.mem_cons, List.not_mem_nil,
          List.append_nil, List.nil_append, or_false] at hmem
        rcases hmem with (h | h) | h | h | h
        · exact absurd h (by simp)
        · exact absurd h (by simp)
        · unfold wlTrace at h
          split at h <;> simp_all
        · rcases mem_tasksTrace env vm _ _ h with ⟨n, hn⟩ | ⟨k, hk⟩ <;> simp_all
        · unfold validationTrace at h
          split at h <;> simp_all
      · intro n hmem
        rw [hA.1, hsr] at hmem
        simp only [List.mem_append, List.mem_singleton, List.append_nil,
          List.not_mem_nil, or_false] at hmem
        rcases hmem with h | h
        · exact hvm vm n h
        · have h2 := mem_wlResources env mi vm _ h
          exact ne_of_heads _ _ 's' 'w' (seResource_head n)
            (h2 ▸ wlResource_head ("vm-" ++ vm.Name)) (by decide) h2
      · intro hmem
        rw [hA.1, hse] at hmem
        simp only [List.mem_append, List.mem_cons, List.not_mem_nil,
          List.nil_append, or_false, false_or] at hmem
        rcases hmem with (h | h | h | h) | h | h | h
        · exact absurd h (by decide)
        · exact absurd h (by decide)
        · exact absurd h (by decide)
        · exact absurd h (by decide)
        · exact absurd (hwl _ h) (by decide)
        · exact htse request.PostBootTasks h
        · exact absurd (mem_validationEntries env request _ h) (by decide)

/-- C3: with mesh integration enabled, a mesh-file (trust material)
generation failure is fatal — the run ends "failed" with the collaborator
error, and auto-cleanup (when set) is the only extra call — whereas a
failure of the optional workload- or service-registration sub-step is
non-fatal: the run still completes with no error and the corresponding
completed-task entry and resource handle are absent. -/
theorem C3_trust_fatal_registration_advisory (env : DeployEnv)
    (request : VMDeploymentRequest) (ci : String) (vm : VMInfo)
    (mi : MeshIntegration)
    (h1 : env.cloudInit = .ok ci) (h2 : env.createVM = .ok vm)
    (h3 : env.waitReady = true) (hmi : request.MeshIntegration = some mi)
    (hen : mi.Enabled = true) :
    (∀ e, env.generateVMFiles = .error e →
      (deployVM env request).status.Status = "failed" ∧
      (deployVM env request).err = some e ∧
      (deployVM env request).trace =
        [Effect.createVMCall request.Name,
         Effect.generateVMFilesCall vm.Name vm.PrivateIP mi.Namespace] ++
        (if request.AutoCleanup then [Effect.deleteVMCall request.Name] else [])) ∧
    (∀ mf e, env.generateVMFiles = .ok mf → mi.CreateWorkloadEntry = true →
      env.createWorkloadEntry = .error e →
      (deployVM env request).err = none ∧
      (deployVM env request).status.Status = "completed" ∧
      "workload_entry_created" ∉ (deployVM env request).status.CompletedTasks ∧
      ("workloadentry:" ++ ("vm-" ++ vm.Name)) ∉
        (deployVM env request).status.CreatedResources) ∧
    (∀ mf e, env.generateVMFiles = .ok mf → mi.CreateServiceEntry = true →
      request.ServiceName ≠ "" → env.createServiceEntry = .error e →
      (deployVM env request).err = none ∧
      (deployVM env request).status.Status = "completed" ∧
      "service_entry_created" ∉ (deployVM env request).status.CompletedTasks ∧
      ("serviceentry:" ++ ("vm-" ++ vm.Name ++ "-service")) ∉
        (deployVM env request).status.CreatedResources) := by
  refine ⟨?_, ?_, ?_⟩
  · intro e hgf
    rw [deployVM_meshFail env request ci vm mi e h1 h2 h3 hmi hen hgf]
    simp
  · intro mf e hgf hflag hcw
    have hA := deployVM_meshOk_run env request ci vm mi mf h1 h2 h3 hmi hen hgf
    have hwl : wlEntries env mi = [] := by
      simp [wlEntries, hcw]
    have hwlr : wlResources env mi vm = [] := by
      simp [wlResources, hcw]
    refine ⟨hA.2.1, by rw [hA.1], ?_, ?_⟩
    · intro hmem
      rw [hA.1, hwl] at hmem
      simp only [List.mem_append, List.mem_cons, List.not_mem_nil,
        List.nil_append, or_false, false_or] at hmem
      rcases hmem with (h | h | h | h) | h | h | h
      · exact absurd h (by decide)
      · exact absurd h (by decide)
      · exact absurd h (by decide)
      · exact absurd h (by decide)
      · exact absurd (mem_seEntries env request mi _ h) (by decide)
      · exact not_mem_taskSuccessEntries env vm _ _ (by decide) h
      · exact absurd (mem_validationEntries env request _ h) (by decide)
    · intro hmem
      rw [hA.1, hwlr] at hmem
      simp only [List.mem_append, List.mem_singleton, List.not_mem_nil,
        List.nil_append, or_false, false_or] at hmem
      rcases hmem with h | h
      · exact ne_of_heads _ _ 'w' 'v' (wlResource_head _)
          (vmResource_head vm.Name) (by decide) h
      · have h2 := mem_seResources env request mi vm _ h
        exact ne_of_heads _ _ 'w' 's' (wlResource_head _)
          (h2 ▸ seResource_head ("vm-" ++ vm.Name ++ "-service")) (by decide) h2
  · intro mf e hgf hflag hsn hcs
    have hA := deployVM_meshOk_run env request ci vm mi mf h1 h2 h3 hmi hen hgf
    have hse : seEntries env request mi = [] := by
      simp [seEntries, hcs]
    have hser : seResources env request mi vm = [] := by
      simp [seResources, hcs]
    refine ⟨hA.2.1, by rw [hA.1], ?_, ?_⟩
    · intro hmem
      rw [hA.1, hse] at hmem
      simp only [List.mem_append, List.mem_cons, List.not_mem_nil,
        List.append_nil, or_false, false_or] at hmem
      rcases hmem with (h | h | h | h) | h | h | h
      · exact absurd h (by decide)
      · exact absurd h (by decide)
      · exact absurd h (by decide)
      · exact absurd h (by decide)
      · exact absurd (mem_wlEntries env mi _ h) (by decide)
      · exact not_mem_taskSuccessEntries env vm _ _ (by decide) h
      · exact absurd (mem_validationEntries env request _ h) (by decide)
    · intro hmem
      rw [hA.1, hser] at hmem
      simp only [List.mem_append, List.mem_singleton, List.not_mem_nil,
        List.append_nil, or_false, false_or] at hmem
      rcases hmem with h | h
      · exact ne_of_heads _ _ 's' 'v' (seResource_head _)
          (vmResource_head vm.Name) (by decide) h
      · have h2 := mem_wlResources env mi vm _ h
        exact ne_of_heads _ _ 's' 'w' (seResource_head _)
          (h2 ▸ wlResource_head ("vm-" ++ vm.Name)) (by decide) h2

/-- C4: whenever `CreateVM` succeeds (after a successful cloud-init step),
the status snapshot taken at the creation step already records exactly the
instance handle `vm:<name>` in the rollback manifest — before any later step
runs or can fail (the environment beyond these two calls is arbitrary) — the
returned manifest still starts with that handle on every path, and over the
whole run `CreatedResources` and `CompletedTasks` are append-only (each
snapshot's lists are a prefix of the next snapshot's). -/
theorem C4_instance_recorded_before_later_steps (env : DeployEnv)
    (request : VMDeploymentRequest) (ci : String) (vm : VMInfo)
    (h1 : env.cloudInit = .ok ci) (h2 : env.createVM = .ok vm) :
    List.Chain' StepExtends (deployVM env request).snapshots ∧
    (statusCreated env vm).CreatedResources = ["vm:" ++ vm.Name] ∧
    ((deployVM env request).snapshots[2]? = some (statusCreated env vm) ∧
     ∃ rest, (deployVM env request).status.CreatedResources =
       ("vm:" ++ vm.Name) :: rest) := by
  refine ⟨deployVM_snapshots_chain env request, rfl, ?_⟩
  rcases h3 : env.waitReady
  · rw [deployVM_waitFail env request ci vm h1 h2 h3]
    exact ⟨rfl, [], rfl⟩
  by_cases hmm : isMeshEnabled request = false
  · have hA := deployVM_noMesh_run env request ci vm h1 h2 h3 hmm
    constructor
    · rcases hmi : request.MeshIntegration with _ | mi
      · rw [deployVM_meshNone env request ci vm h1 h2 h3 hmi]
        rfl
      · have hen : mi.Enabled = false := by
          simp [isMeshEnabled, hmi] at hmm
          exact hmm
        rw [deployVM_meshDisabled env request ci vm mi h1 h2 h3 hmi hen]
        rfl
    · exact ⟨[], by rw [hA.1]⟩
  · rcases hmi : request.MeshIntegration with _ | mi
    · simp [isMeshEnabled, hmi] at hmm
    have hen : mi.Enabled = true := by
      simp [isMeshEnabled, hmi] at hmm
      exact hmm
    rcases hgf : env.generateVMFiles with e | mf
    · rw [deployVM_meshFail env request ci vm mi e h1 h2 h3 hmi hen hgf]
      exact ⟨rfl, [], rfl⟩
    · have hA := deployVM_meshOk_run env request ci vm mi mf h1 h2 h3 hmi hen hgf
      constructor
      · rw [deployVM_meshOk env request ci vm mi mf h1 h2 h3 hmi hen hgf]
        rfl
      · refine ⟨wlResources env mi vm ++ seResources env request mi vm, ?_⟩
        rw [hA.1]
        simp

/-- C5, at the failing input: a `wait` task of configured duration 120
seconds with only 60 seconds of deployment budget left sleeps the full 120
seconds — `time.Sleep` ignores the task/deployment deadline — exceeding
`min(D, remaining budget) = 60`; the task then reports success. -/
theorem C5_wait_ignores_deadline :
    waitTaskElapsed envOk taskWait 60 = 120 ∧
    Nat.min 120 60 = 60 ∧
    Nat.min 120 60 < waitTaskElapsed envOk taskWait 60 ∧
    executePostBootTask envOk vm0 taskWait = (.ok (), [Effect.sleepFor 120]) := by
  refine ⟨rfl, rfl, by decide, rfl⟩

/-- C6, at the failing input: a `script` task with retry count 2 makes zero
attempts at its remote command — the branch only logs that script execution
is not implemented — and returns success with no collaborator call, instead
of the claimed 1 to R+1 attempts under a per-attempt timeout. -/
theorem C6_script_never_attempted :
    executePostBootTask envOk vm0 taskScript = (.ok (), []) ∧
    taskScript.RetryCount = 2 := ⟨rfl, rfl⟩

lemma CleanupVMResources_vms (env : CloudEnv) (vmName : String) (w : World) :
    (CleanupVMResources env vmName w).vms = w.vms := by
  unfold CleanupVMResources
  dsimp only
  split <;> split <;> rfl

/-- C7: explicit cleanup is idempotent — if a `CleanupDeployment` call
succeeds, a second call on the resulting world also succeeds, under the
collaborator contract that deleting an already-absent VM is a tolerated
no-op (the Istio record cleanup never propagates errors at all). -/
theorem C7_cleanup_idempotent (env : CloudEnv) (vmName : String)
    (w w1 : World) (hfirst : CleanupDeployment env vmName w = .ok w1)
    (htol : ∀ w', vmName ∉ w'.vms → env.deleteVMErr vmName w' = none) :
    ∃ w2, CleanupDeployment env vmName w1 = .ok w2 := by
  unfold CleanupDeployment AzureDeleteVM at hfirst
  rcases hd : env.deleteVMErr vmName (CleanupVMResources env vmName w)
    with _ | e
  · rw [hd] at hfirst
    simp only [Except.ok.injEq] at hfirst
    have hnm : vmName ∉ w1.vms := by
      rw [← hfirst]
      simp
    have hnone := htol (CleanupVMResources env vmName w1)
      (by rw [CleanupVMResources_vms]; exact hnm)
    refine ⟨{ CleanupVMResources env vmName w1 with
      vms := (CleanupVMResources env vmName w1).vms.filter
        (fun n => n ≠ vmName) }, ?_⟩
    unfold CleanupDeployment AzureDeleteVM
    rw [hnone]
  · rw [hd] at hfirst
    simp at hfirst

lemma exec_validateConn (env : DeployEnv) (v : Except String Bool)
    (vm : VMInfo) (t : PostBootTask) :
    executePostBootTask { env with validateConn := v } vm t =
      executePostBootTask env vm t := rfl

lemma taskSuccessEntries_validateConn (env : DeployEnv)
    (v : Except String Bool) (vm : VMInfo) (tasks : List PostBootTask) :
    taskSuccessEntries { env with validateConn := v } vm tasks =
      taskSuccessEntries env vm tasks := rfl

lemma wlEntries_validateConn (env : DeployEnv) (v : Except String Bool)
    (mi : MeshIntegration) :
    wlEntries { env with validateConn := v } mi = wlEntries env mi := rfl

lemma seEntries_validateConn (env : DeployEnv) (v : Except String Bool)
    (request : VMDeploymentRequest) (mi : MeshIntegration) :
    seEntries { env with validateConn := v } request mi =
      seEntries env request mi := rfl

lemma wlResources_validateConn (env : DeployEnv) (v : Except String Bool)
    (mi : MeshIntegration) (vm : VMInfo) :
    wlResources { env with validateConn := v } mi vm =
      wlResources env mi vm := rfl

lemma seResources_validateConn (env : DeployEnv) (v : Except String Bool)
    (request : VMDeploymentRequest) (mi : MeshIntegration) (vm : VMInfo) :
    seResources { env with validateConn := v } request mi vm =
      seResources env request mi vm := rfl

/-- C8: with mesh integration enabled, a failed final mesh-connectivity
validation (collaborator error or `false`) never flips the run to failed:
the run still completes with no error, the `mesh_validation_passed` entry is
absent, and the returned status differs from the same run with a passing
validation only by that entry. -/
theorem C8_validation_failure_nonfatal (env : DeployEnv)
    (request : VMDeploymentRequest) (ci : String) (vm : VMInfo)
    (mi : MeshIntegration) (mf : VMMeshFiles)
    (h1 : env.cloudInit = .ok ci) (h2 : env.createVM = .ok vm)
    (h3 : env.waitReady = true) (hmi : request.MeshIntegration = some mi)
    (hen : mi.Enabled = true) (hgf : env.generateVMFiles = .ok mf)
    (hv : (∃ e, env.validateConn = .error e) ∨ env.validateConn = .ok false) :
    (deployVM env request).err = none ∧
    (deployVM env request).status.Status = "completed" ∧
    "mesh_validation_passed" ∉ (deployVM env request).status.CompletedTasks ∧
    (deployVM { env with validateConn := .ok true } request).status =
      { (deployVM env request).status with
        CompletedTasks := (deployVM env request).status.CompletedTasks ++
          ["mesh_validation_passed"] } := by
  have hA := deployVM_meshOk_run env request ci vm mi mf h1 h2 h3 hmi hen hgf
  have hB := deployVM_meshOk_run { env with validateConn := .ok true } request
    ci vm mi mf h1 h2 h3 hmi hen hgf
  have hVE : validationEntries env request = [] := by
    rcases hv with ⟨e, he⟩ | he <;>
      simp [validationEntries, isMeshEnabled, hmi, hen, he]
  have hVE' : validationEntries { env with validateConn := .ok true } request =
      ["mesh_validation_passed"] := by
    simp [validationEntries, isMeshEnabled, hmi, hen]
  refine ⟨hA.2.1, by rw [hA.1], ?_, ?_⟩
  · intro hmem
    rw [hA.1, hVE] at hmem
    simp only [List.mem_append, List.mem_cons, List.not_mem_nil,
      List.append_nil, or_false, false_or] at hmem
    rcases hmem with (h | h | h | h) | (h | h) | h
    · exact absurd h (by decide)
    · exact absurd h (by decide)
    · exact absurd h (by decide)
    · exact absurd h (by decide)
    · exact absurd (mem_wlEntries env mi _ h) (by decide)
    · exact absurd (mem_seEntries env request mi _ h) (by decide)
    · exact not_mem_taskSuccessEntries env vm _ _ (by decide) h
  · rw [hB.1, hA.1]
    simp [hVE, hVE', taskSuccessEntries_validateConn, wlEntries_validateConn,
      seEntries_validateConn, wlResources_validateConn,
      seResources_validateConn, List.append_assoc]

/-- C9: post-boot task failures are advisory.  Whenever the provisioning
steps succeed (and mesh-file generation succeeds if mesh integration is
enabled), there are fixed lists A, B, preT, postT — independent of the
tasks — such that for every ordered task list the run completes with no
error, the completed entries are exactly A, then one entry per successful
task in order, then B (failed tasks contribute nothing), and the trace shows
every task invoked in order between preT and postT. -/
theorem C9_task_failures_advisory (env : DeployEnv)
    (request : VMDeploymentRequest) (ci : String) (vm : VMInfo)
    (h1 : env.cloudInit = .ok ci) (h2 : env.createVM = .ok vm)
    (h3 : env.waitReady = true)
    (h4 : ∀ mi, request.MeshIntegration = some mi → mi.Enabled = true →
      ∃ mf, env.generateVMFiles = .ok mf) :
    ∃ A B preT postT, ∀ tasks : List PostBootTask,
      (deployVM env { request with PostBootTasks := tasks }).err = none ∧
      (deployVM env { request with PostBootTasks := tasks }).status.Status =
        "completed" ∧
      (deployVM env
        { request with PostBootTasks := tasks }).status.CompletedTasks =
        A ++ taskSuccessEntries env vm tasks ++ B ∧
      (deployVM env { request with PostBootTasks := tasks }).trace =
        preT ++ tasksTrace env vm tasks ++ postT := by
  by_cases hmm : isMeshEnabled request = false
  · refine ⟨["cloud_init_generated", "vm_created", "vm_ready"], [],
      [Effect.createVMCall request.Name], [], ?_⟩
    intro tasks
    have hA := deployVM_noMesh_run env { request with PostBootTasks := tasks }
      ci vm h1 h2 h3 hmm
    refine ⟨hA.2.1, by rw [hA.1], ?_, ?_⟩
    · rw [hA.1]
      simp
    · rw [hA.2.2]
      simp
  · rcases hmi : request.MeshIntegration with _ | mi
    · simp [isMeshEnabled, hmi] at hmm
    have hen : mi.Enabled = true := by
      simp [isMeshEnabled, hmi] at hmm
      exact hmm
    obtain ⟨mf, hgf⟩ := h4 mi hmi hen
    refine ⟨["cloud_init_generated", "vm_created", "vm_ready",
        "mesh_files_generated"] ++ (wlEntries env mi ++ seEntries env request mi),
      validationEntries env request,
      [Effect.createVMCall request.Name,
        Effect.generateVMFilesCall vm.Name vm.PrivateIP mi.Namespace] ++
        (wlTrace mi vm ++ seTrace request mi vm),
      validationTrace request vm, ?_⟩
    intro tasks
    rw [← hmi]
    have hmi' : ({ request with PostBootTasks := tasks } :
        VMDeploymentRequest).MeshIntegration = some mi := by
      simp [hmi]
    have hA := deployVM_meshOk_run env { request with PostBootTasks := tasks }
      ci vm mi mf h1 h2 h3 hmi' hen hgf
    have hseq : seEntries env { request with PostBootTasks := tasks } mi =
      seEntries env request mi := rfl
    have hveq : validationEntries env { request with PostBootTasks := tasks } =
      validationEntries env request := rfl
    have hstq : seTrace { request with PostBootTasks := tasks } mi vm =
      seTrace request mi vm := rfl
    have hvtq : validationTrace { request with PostBootTasks := tasks } vm =
      validationTrace request vm := rfl
    refine ⟨hA.2.1, by rw [hA.1], ?_, ?_⟩
    · rw [hA.1]
      simp [hseq, hveq, List.append_assoc]
    · rw [hA.2.2]
      simp [hstq, hvtq, List.append_assoc]

/-- C10: the status lookup holds no per-run state — `VMService` stores no
deployment record — so it depends only on the `GetVM` lookup: on success it
returns a fresh status that is always "running" with empty completed tasks,
no created resources and no error, whatever any earlier run did; it fails
exactly when `GetVM` fails. -/
theorem C10_status_lookup_is_fresh (env : StatusEnv) :
    (∀ vm, env.getVM = .ok vm →
      GetVMDeploymentStatus env = .ok {
        VM := some vm, Status := "running", CurrentTask := "",
        CompletedTasks := [], Error := "", MeshFiles := none,
        CreatedResources := [], Timestamp := env.now }) ∧
    (∀ e, env.getVM = .error e →
      GetVMDeploymentStatus env = .error ("failed to get VM info: " ++ e)) := by
  constructor <;> intro x hx <;> simp [GetVMDeploymentStatus, hx]

theorem C2_amended_witness :
    (deployVM envOk reqC2).err =
      (deployVM envOk (setCreateServiceEntryFalse reqC2)).err :=
  (C2_amended envOk reqC2 rfl).2.1

theorem C3_witness :
    (deployVM envWlFail reqC3).err = none ∧
    "workload_entry_created" ∉ (deployVM envWlFail reqC3).status.CompletedTasks := by
  have h := (C3_trust_fatal_registration_advisory envWlFail reqC3 "ci" vm0 mi0
    rfl rfl rfl rfl rfl).2.1 mf0 "boom" rfl rfl rfl
  exact ⟨h.1, h.2.2.1⟩

theorem C4_witness :
    List.Chain' StepExtends (deployVM envOk reqC2).snapshots :=
  (C4_instance_recorded_before_later_steps envOk reqC2 "ci" vm0 rfl rfl).1

theorem C7_witness :
    ∃ w2, CleanupDeployment cloudEnv0 "vm1" ⟨[], [], []⟩ = .ok w2 :=
  C7_cleanup_idempotent cloudEnv0 "vm1" w0 ⟨[], [], []⟩ rfl
    (fun _ _ => rfl)

theorem C8_witness : (deployVM envValFail reqC2).err = none :=
  (C8_validation_failure_nonfatal envValFail reqC2 "ci" vm0 mi0 mf0
    rfl rfl rfl rfl rfl rfl (Or.inr rfl)).1

theorem C9_witness :
    (deployVM envOk { reqC2 with PostBootTasks := [taskScript] }).err = none := by
  obtain ⟨A, B, preT, postT, h⟩ := C9_task_failures_advisory envOk reqC2 "ci"
    vm0 rfl rfl rfl (fun mi hmi hen => ⟨mf0, rfl⟩)
  exact (h [taskScript]).1

theorem C10_witness :
    GetVMDeploymentStatus statusEnv0 = .ok {
      VM := some vm0, Status := "running", CurrentTask := "",
      CompletedTasks := [], Error := "", MeshFiles := none,
      CreatedResources := [], Timestamp := 3 } :=
  (C10_status_lookup_is_fresh statusEnv0).1 vm0 rfl

end IstioAzureSetup
